import Mathlib

/-!
# Verification of the yars scrape-merge-persist pipeline

Shallow embedding of the core logic of the repository:

* `Cli` — `src/example/cli.py` (`RedditScraper._safe_execute`,
  `comprehensive_scrape`, `_load_existing_data`, `_save_to_json`, `main`);
* `PostDb` — `src/scripts/post_db.py` (`extract_subreddit`, the recursive
  `insert_comments` inside `insert_post`);
* `Db2Txt` — `src/scripts/db2txt.py` (`extract_subreddit`).

Python dictionaries with possibly-missing keys are embedded as structures of
`Option`-typed fields; `d.get(k, default)` becomes `Option.getD`.  Python
exceptions are embedded as `Except`/`Option` results, and file-system effects
as explicit state (`Option String` for a file's content).
-/

namespace Cli

/-- Observable outcome of one `_safe_execute` run: the returned value (`none`
when all attempts failed or the loop never ran), the list of attempt indices
at which the wrapped function was invoked, the sequence of `sleep` durations
issued (in order), and the amount added to `self.error_count`. -/
structure ExecTrace (A : Type) where
  result : Option A
  calls : List Nat
  sleeps : List ℚ
  errorIncrement : Nat
deriving Repr, DecidableEq

/-- The body of the `for attempt in range(max_retries)` loop of
`RedditScraper._safe_execute` (src/example/cli.py lines 68-80), written as a
recursion on the number of remaining iterations.  `remaining` is the number of
loop iterations still to run and `attempt` the current value of the loop
variable; `attempt < max_retries - 1` holds exactly when at least one further
iteration remains, i.e. when `remaining > 1`.  On success the function's value
is returned at once; on an exception the loop sleeps
`rate_limit_delay * (attempt + 1)` unless this was the last iteration, in
which case `error_count` is incremented; falling off the loop returns
`None`. -/
def safeExecuteGo {E A : Type} (f : Nat → Except E A) (delay : ℚ) :
    Nat → Nat → ExecTrace A
  | 0, _ => ⟨none, [], [], 0⟩
  | remaining + 1, attempt =>
    match f attempt with
    | Except.ok a => ⟨some a, [attempt], [], 0⟩
    | Except.error _ =>
      if remaining = 0 then
        ⟨none, [attempt], [], 1⟩
      else
        let t := safeExecuteGo f delay remaining (attempt + 1)
        ⟨t.result, attempt :: t.calls,
          delay * ((attempt + 1 : Nat) : ℚ) :: t.sleeps, t.errorIncrement⟩

/-- `RedditScraper._safe_execute` (src/example/cli.py lines 68-80).
`maxRetries` is `self.config.max_retries` (an `int`, possibly non-positive,
in which case `range(max_retries)` is empty), `delay` is
`self.config.rate_limit_delay`, and `f i` is the outcome of calling the
wrapped function on loop iteration `i` (`Except.error` = the call raised). -/
def safeExecute {E A : Type} (maxRetries : Int) (delay : ℚ)
    (f : Nat → Except E A) : ExecTrace A :=
  safeExecuteGo f delay maxRetries.toNat 0

/-- A candidate item returned by `fetch_subreddit_posts`: a Python dict whose
keys may be absent (`none` = key missing).  Only the fields the pipeline
logic inspects are carried; `post.get("permalink", "")` becomes
`permalink.getD ""`. -/
structure RawPost where
  permalink : Option String
  title : Option String
deriving Repr, DecidableEq

/-- The dict returned by `scrape_post_details` for one permalink (its `body`
and `comments` are copied into the stored record). -/
structure PostDetails where
  body : Option String
deriving Repr, DecidableEq

/-- A record of the persisted JSON store.  Records written by
`_create_post_record` always carry a `permalink` key, but a hand-edited or
foreign prior file may lack it, so the field stays optional;
`item.get("permalink")` (no default, line 198) is exactly the `permalink`
field. -/
structure StoredPost where
  permalink : Option String
  body : Option String
deriving Repr, DecidableEq

/-- `post.get("permalink", "")` (src/example/cli.py line 201). -/
def effPermalink (post : RawPost) : String :=
  post.permalink.getD ""

/-- `_create_post_record` (src/example/cli.py lines 229-246), restricted to
the fields the embedding carries: the stored record's permalink is
`post.get("permalink", "")` and its body comes from the details dict. -/
def createPostRecord (post : RawPost) (details : PostDetails) : StoredPost :=
  ⟨some (effPermalink post), some (details.body.getD "")⟩

/-- The per-post loop of `comprehensive_scrape` (src/example/cli.py lines
200-221).  `existingPermalinks` is the set
`{item.get("permalink") for item in existing_data}` (membership is all that
is used of it, so a list of `Option String` suffices); `scrapeDetails p` is
the result of `self.scrape_post_details(p)` (`none` when retries were
exhausted or the result was falsy).  Returns `new_data` together with the
list of permalinks for which a detail-scrape call was issued, in order.
Note the Python membership test compares the string
`post.get("permalink", "")` against elements that are `None` or strings;
a string never equals `None`, which the `some` injection mirrors. -/
def processPosts (scrapeDetails : String → Option PostDetails)
    (existingPermalinks : List (Option String)) :
    List RawPost → List StoredPost × List String
  | [] => ([], [])
  | post :: rest =>
    let p := effPermalink post
    if (some p) ∈ existingPermalinks then
      processPosts scrapeDetails existingPermalinks rest
    else
      let r := processPosts scrapeDetails existingPermalinks rest
      match scrapeDetails p with
      | some details => (createPostRecord post details :: r.1, p :: r.2)
      | none => (r.1, p :: r.2)

/-- The merge performed by `comprehensive_scrape` (src/example/cli.py lines
197-225): compute `existing_permalinks` once from the loaded data, build
`new_data` by filtering and detail-scraping the fetched posts, and save
`all_data = existing_data + new_data`.  Returns
`(all_data, len(new_data), detail-scrape calls issued)`. -/
def mergeScrape (existing : List StoredPost) (posts : List RawPost)
    (scrapeDetails : String → Option PostDetails) :
    List StoredPost × Nat × List String :=
  let r := processPosts scrapeDetails (existing.map (·.permalink)) posts
  (existing ++ r.1, r.1.length, r.2)

/-- `RedditScraper._load_existing_data` (src/example/cli.py lines 259-266).
`file` is the content of the file at `filename` (`none` = absent, raising
`FileNotFoundError`), and `parse` is `json.load` (`none` = the content is
not valid JSON, raising `json.JSONDecodeError`); both exceptions are caught
and yield `[]`. -/
def loadExistingData (file : Option String)
    (parse : String → Option (List StoredPost)) : List StoredPost :=
  match file with
  | none => []
  | some content =>
    match parse content with
    | none => []
    | some data => data

/-- `RedditScraper._save_to_json` (src/example/cli.py lines 268-276).
`open(filename, "w")` truncates the target in place, after which
`json.dump` writes the serialized text incrementally; `chunks` is that text
split at the points where a fault could occur and `failAfter = some k`
means serialization raised after `k` chunks were written (`none` = success).
On a fault the handler logs and re-`raise`s, so the second component records
whether an exception propagates to the caller; the first is the file's
content afterwards.  The prior content `prior` is discarded by the
truncating open. -/
def saveToJson (prior : Option String) (chunks : List String)
    (failAfter : Option Nat) : Option String × Bool :=
  match failAfter with
  | none => (some (String.join chunks), false)
  | some k => (some (String.join (chunks.take k)), true)

/-- Observable outcome of one `comprehensive_scrape` run: the data passed to
`_save_to_json` (`none` when the run returned before saving),
`len(new_data)`, whether the fetch failure was reported via `logger.error`,
and whether an exception escaped the method (only `_save_to_json`
re-raises; every other fault is swallowed by `_safe_execute`). -/
structure ScrapeOutcome where
  saved : Option (List StoredPost)
  newCount : Nat
  fetchFailureReported : Bool
  raised : Bool
deriving Repr, DecidableEq

/-- `RedditScraper.comprehensive_scrape` (src/example/cli.py lines 179-227),
with the fetch outcome passed in: `fetchResult` is the value of
`self.fetch_subreddit_posts(...)` (`none` when every retry failed).  The
guard `if not posts` treats both `None` and the empty list as a failed
fetch, logs an error and returns without saving anything; no exception is
raised on that path.  `saveRaises d` tells whether `json.dump` raises on
the data `d` (in which case `_save_to_json` re-raises). -/
def comprehensiveScrape (file : Option String)
    (parse : String → Option (List StoredPost))
    (fetchResult : Option (List RawPost))
    (scrapeDetails : String → Option PostDetails)
    (saveRaises : List StoredPost → Bool) : ScrapeOutcome :=
  let existing := loadExistingData file parse
  match fetchResult with
  | none => ⟨none, 0, true, false⟩
  | some posts =>
    if posts.isEmpty then ⟨none, 0, true, false⟩
    else
      let r := mergeScrape existing posts scrapeDetails
      ⟨some r.1, r.2.1, false, saveRaises r.1⟩

/-- The `try`/`except` of `main` (src/example/cli.py lines 381-399) around
the scrape action: `sys.exit(1)` only when an exception escapes
(`KeyboardInterrupt` or any other); a `comprehensive_scrape` that returns
normally — in particular one that aborted because the fetch failed — falls
through to the statistics logging and the process exits with code 0. -/
def mainExitCode (file : Option String)
    (parse : String → Option (List StoredPost))
    (fetchResult : Option (List RawPost))
    (scrapeDetails : String → Option PostDetails)
    (saveRaises : List StoredPost → Bool) : Nat × ScrapeOutcome :=
  let outcome := comprehensiveScrape file parse fetchResult scrapeDetails saveRaises
  (if outcome.raised then 1 else 0, outcome)

end Cli

/-- One step of `re.search(r"/r/([^/]+)/", permalink)` (used identically in
src/scripts/post_db.py line 67 and src/scripts/db2txt.py line 48): attempt a
match anchored at the head of the character list.  The pattern matches here
exactly when the list starts with the literal `/r/`, followed by a non-empty
maximal run of non-`/` characters, followed by `/`; the capture is that run.
(Backtracking the greedy `[^/]+` cannot produce any other outcome, since
every shorter run is followed by a non-`/` character.) -/
def rSlashCaptureAt : List Char → Option (List Char)
  | '/' :: 'r' :: '/' :: rest =>
    let run := rest.takeWhile (fun c => c ≠ '/')
    if run ≠ [] ∧ (rest.drop run.length).head? = some '/' then some run
    else none
  | _ => none

/-- `re.search` scans left to right and returns the first position at which
the pattern matches; `none` when no position matches. -/
def rSlashSearch : List Char → Option (List Char)
  | [] => none
  | c :: cs =>
    match rSlashCaptureAt (c :: cs) with
    | some r => some r
    | none => rSlashSearch cs

/-- The value domain of the two Python `extract_subreddit` functions: either
`None` or a string. -/
inductive PyStr where
  | pyNone
  | pyStr (s : String)
deriving Repr, DecidableEq

namespace PostDb

/-- `extract_subreddit` of src/scripts/post_db.py lines 66-68:
`match.group(1) if match else None`. -/
def extract_subreddit (permalink : String) : Option String :=
  (rSlashSearch permalink.toList).map fun cs => String.mk cs

/-- `extract_subreddit` of post_db.py seen as a Python value. -/
def extractSubredditVal (permalink : String) : PyStr :=
  match extract_subreddit permalink with
  | some s => PyStr.pyStr s
  | none => PyStr.pyNone

/-- A comment dict of the scraped JSON: `author`, `body`, `score` keys may be
absent, `replies` is the nested list of child comments. -/
inductive Comment where
  | mk (author : Option String) (body : Option String) (score : Option Int)
      (replies : List Comment)

/-- `comment.get('body', '')`. -/
def Comment.bodyText : Comment → String
  | .mk _ body _ _ => body.getD ""

/-- A row of the `comments` table: serial `id`, owning `post_id`, data
columns, and the nullable self-referencing `parent_comment_id`. -/
structure CommentRow where
  id : Nat
  postId : Nat
  author : String
  body : String
  score : Int
  parentId : Option Nat
deriving Repr, DecidableEq

/-- The `comments` table together with the serial-id counter that
`RETURNING id` draws from; insertion appends, so `rows` is in insertion
order (which is what `ORDER BY id` later reads back). -/
structure CommentsDB where
  nextId : Nat
  rows : List CommentRow
deriving Repr, DecidableEq

mutual
/-- The recursive `insert_comments(comment, parent_id=None)` inside
`insert_post` (src/scripts/post_db.py lines 116-133): if the comment's body
is not one of the tombstones `'[removed]'`/`'[deleted]'`, insert a row with
the next serial id and recurse into `comment.get('replies', [])` with that
id as parent; otherwise do nothing at all — the replies of a tombstoned
comment are never visited. -/
def insertComments (postId : Nat) (comment : Comment) (parentId : Option Nat)
    (st : CommentsDB) : CommentsDB :=
  match comment with
  | .mk author body score replies =>
    if (body.getD "") ∉ (["[removed]", "[deleted]"] : List String) then
      insertReplies postId replies (some st.nextId)
        ⟨st.nextId + 1,
          st.rows ++ [⟨st.nextId, postId, author.getD "", body.getD "",
            score.getD 0, parentId⟩]⟩
    else st

/-- `for reply in comment.get('replies', []): insert_comments(reply, comment_id)`,
threading the table state left to right. -/
def insertReplies (postId : Nat) (cs : List Comment) (parentId : Option Nat)
    (st : CommentsDB) : CommentsDB :=
  match cs with
  | [] => st
  | c :: rest =>
    insertReplies postId rest parentId (insertComments postId c parentId st)
end

end PostDb

namespace Db2Txt

/-- `extract_subreddit` of src/scripts/db2txt.py lines 47-49:
`match.group(1) if match else "unknown_subreddit"`. -/
def extract_subreddit (permalink : String) : String :=
  match rSlashSearch permalink.toList with
  | some cs => String.mk cs
  | none => "unknown_subreddit"

/-- `extract_subreddit` of db2txt.py seen as a Python value (always a
string). -/
def extractSubredditVal (permalink : String) : PyStr :=
  PyStr.pyStr (extract_subreddit permalink)

end Db2Txt

namespace Cli

theorem safeExecuteGo_allFail {E A : Type} (f : Nat → Except E A) (delay : ℚ)
    (hf : ∀ i, ∃ e, f i = Except.error e) :
    ∀ remaining attempt, 1 ≤ remaining →
      safeExecuteGo f delay remaining attempt =
        ⟨none, (List.range remaining).map (· + attempt),
          (List.range (remaining - 1)).map
            (fun k => delay * ((attempt + k + 1 : Nat) : ℚ)), 1⟩ := by
  intro remaining
  induction remaining with
  | zero => intro attempt h; omega
  | succ r ih =>
    intro attempt _
    obtain ⟨e, he⟩ := hf attempt
    rcases Nat.eq_zero_or_pos r with hr | hr
    · subst hr
      simp [safeExecuteGo, he, List.range_succ]
    · have hstep : safeExecuteGo f delay (r + 1) attempt =
          let t := safeExecuteGo f delay r (attempt + 1)
          ⟨t.result, attempt :: t.calls,
            delay * ((attempt + 1 : Nat) : ℚ) :: t.sleeps, t.errorIncrement⟩ := by
        simp [safeExecuteGo, he, Nat.pos_iff_ne_zero.mp hr]
      have hcalls : (List.range (r + 1)).map (· + attempt)
          = attempt :: (List.range r).map (· + (attempt + 1)) := by
        rw [List.range_succ_eq_map, List.map_cons, List.map_map]
        refine congrArg₂ List.cons (Nat.zero_add attempt) ?_
        refine List.map_congr_left fun x _ => ?_
        simp only [Function.comp_apply, Nat.succ_eq_add_one]
        omega
      have hsleeps : (List.range (r + 1 - 1)).map
            (fun k => delay * ((attempt + k + 1 : Nat) : ℚ))
          = delay * ((attempt + 1 : Nat) : ℚ) ::
            (List.range (r - 1)).map
              (fun k => delay * (((attempt + 1) + k + 1 : Nat) : ℚ)) := by
        have hr1 : r + 1 - 1 = (r - 1) + 1 := by omega
        rw [hr1, List.range_succ_eq_map, List.map_cons, List.map_map]
        refine congrArg₂ List.cons (by norm_num) ?_
        refine List.map_congr_left fun x _ => ?_
        simp only [Function.comp_apply, Nat.succ_eq_add_one]
        congr 2
        omega
      rw [hstep, ih (attempt + 1) hr, hcalls, hsleeps]

/-- Every detail-scrape call issued by the per-post loop is for a permalink
that is not in the precomputed `existing_permalinks` set. -/
theorem processPosts_calls_not_existing
    (scrapeDetails : String → Option PostDetails)
    (exP : List (Option String)) :
    ∀ posts : List RawPost, ∀ q ∈ (processPosts scrapeDetails exP posts).2,
      (some q) ∉ exP := by
  intro posts
  induction posts with
  | nil => intro q hq; simp [processPosts] at hq
  | cons post rest ih =>
    intro q hq
    by_cases hmem : (some (effPermalink post)) ∈ exP
    · rw [processPosts, if_pos hmem] at hq
      exact ih q hq
    · rw [processPosts, if_neg hmem] at hq
      rcases hd : scrapeDetails (effPermalink post) with _ | details <;>
        rw [hd] at hq <;> simp only [List.mem_cons] at hq <;>
        rcases hq with hq | hq
      · subst hq; exact hmem
      · exact ih q hq
      · subst hq; exact hmem
      · exact ih q hq

/-- Every record in `new_data` has the effective permalink of one of the
fetched posts, and that permalink is not in `existing_permalinks`. -/
theorem processPosts_new_mem
    (scrapeDetails : String → Option PostDetails)
    (exP : List (Option String)) :
    ∀ posts : List RawPost, ∀ r ∈ (processPosts scrapeDetails exP posts).1,
      (∃ post ∈ posts, r.permalink = some (effPermalink post)) ∧
        r.permalink ∉ exP := by
  intro posts
  induction posts with
  | nil => intro r hr; simp [processPosts] at hr
  | cons post rest ih =>
    intro r hr
    by_cases hmem : (some (effPermalink post)) ∈ exP
    · rw [processPosts, if_pos hmem] at hr
      obtain ⟨⟨p', hp', he⟩, hnot⟩ := ih r hr
      exact ⟨⟨p', List.mem_cons_of_mem _ hp', he⟩, hnot⟩
    · rw [processPosts, if_neg hmem] at hr
      rcases hd : scrapeDetails (effPermalink post) with _ | details <;>
        rw [hd] at hr
      · obtain ⟨⟨p', hp', he⟩, hnot⟩ := ih r hr
        exact ⟨⟨p', List.mem_cons_of_mem _ hp', he⟩, hnot⟩
      · simp only [List.mem_cons] at hr
        rcases hr with hr | hr
        · subst hr
          exact ⟨⟨post, List.mem_cons_self _ _, rfl⟩, hmem⟩
        · obtain ⟨⟨p', hp', he⟩, hnot⟩ := ih r hr
          exact ⟨⟨p', List.mem_cons_of_mem _ hp', he⟩, hnot⟩

/-- If the fetched posts' effective permalinks are pairwise distinct, so are
the permalinks of the records in `new_data`. -/
theorem processPosts_new_nodup
    (scrapeDetails : String → Option PostDetails)
    (exP : List (Option String)) :
    ∀ posts : List RawPost, (posts.map effPermalink).Nodup →
      ((processPosts scrapeDetails exP posts).1.map (·.permalink)).Nodup := by
  intro posts
  induction posts with
  | nil => intro _; simp [processPosts]
  | cons post rest ih =>
    intro hnd
    rw [List.map_cons, List.nodup_cons] at hnd
    obtain ⟨hpost, hrest⟩ := hnd
    by_cases hmem : (some (effPermalink post)) ∈ exP
    · rw [processPosts, if_pos hmem]
      exact ih hrest
    · rw [processPosts, if_neg hmem]
      rcases hd : scrapeDetails (effPermalink post) with _ | details
      · exact ih hrest
      · simp only [List.map_cons, List.nodup_cons]
        refine ⟨?_, ih hrest⟩
        intro hin
        simp only [List.mem_map] at hin
        obtain ⟨r, hr, hre⟩ := hin
        obtain ⟨⟨p', hp', he⟩, _⟩ :=
          processPosts_new_mem scrapeDetails exP rest r hr
        apply hpost
        rw [List.mem_map]
        refine ⟨p', hp', ?_⟩
        have h1 : some (effPermalink p') = some (effPermalink post) := by
          rw [← he, hre]
          rfl
        exact Option.some_injective _ h1

/-- A fetched post whose detail scrape yields a (truthy) result ends up — by
permalink — either already in `existing_permalinks` or in `new_data`. -/
theorem processPosts_covers
    (scrapeDetails : String → Option PostDetails)
    (exP : List (Option String)) :
    ∀ posts : List RawPost, ∀ post ∈ posts,
      (scrapeDetails (effPermalink post)).isSome →
        (some (effPermalink post)) ∈ exP ∨
        (some (effPermalink post)) ∈
          (processPosts scrapeDetails exP posts).1.map (·.permalink) := by
  intro posts
  induction posts with
  | nil => intro post hpost; simp at hpost
  | cons head rest ih =>
    intro post hpost hsome
    rcases List.mem_cons.mp hpost with heq | hmem
    · subst heq
      by_cases hin : (some (effPermalink post)) ∈ exP
      · exact Or.inl hin
      · right
        rw [processPosts, if_neg hin]
        rcases hd : scrapeDetails (effPermalink post) with _ | details
        · rw [hd] at hsome; simp at hsome
        · simp [createPostRecord]
    · rcases ih post hmem hsome with hin | hin
      · exact Or.inl hin
      · right
        by_cases hhead : (some (effPermalink head)) ∈ exP
        · rw [processPosts, if_pos hhead]
          exact hin
        · rw [processPosts, if_neg hhead]
          rcases hd : scrapeDetails (effPermalink head) with _ | details
          · exact hin
          · simp only [List.map_cons, List.mem_cons]
            exact Or.inr hin

/-- If every fetched post with a successful detail scrape already has its
effective permalink in `existing_permalinks`, the loop adds no record. -/
theorem processPosts_nil_of_covered
    (scrapeDetails : String → Option PostDetails)
    (exP : List (Option String)) :
    ∀ posts : List RawPost,
      (∀ post ∈ posts, (scrapeDetails (effPermalink post)).isSome →
        (some (effPermalink post)) ∈ exP) →
      (processPosts scrapeDetails exP posts).1 = [] := by
  intro posts
  induction posts with
  | nil => intro _; rfl
  | cons head rest ih =>
    intro hcov
    have hrest := fun post hpost =>
      hcov post (List.mem_cons_of_mem _ hpost)
    by_cases hmem : (some (effPermalink head)) ∈ exP
    · rw [processPosts, if_pos hmem]
      exact ih hrest
    · rw [processPosts, if_neg hmem]
      rcases hd : scrapeDetails (effPermalink head) with _ | details
      · exact ih hrest
      · exact absurd (hcov head (List.mem_cons_self _ _) (by rw [hd]; rfl)) hmem

end Cli

/-- C4: if the wrapped operation raises on every invocation and the configured
maximum attempt count `N` is at least 1, then `_safe_execute` invokes the
operation exactly `N` times (at attempt indices `0 .. N-1`), sleeps
`D * k` after the `k`-th failure for every `k < N` and not after the `N`-th,
returns `None` without letting any exception escape, and increments
`self.error_count` by exactly one. -/
theorem C4_retry_exhaustion {E A : Type} (f : Nat → Except E A) (N : Int)
    (D : ℚ) (hN : 1 ≤ N) (hf : ∀ i, ∃ e, f i = Except.error e) :
    Cli.safeExecute N D f =
      ⟨none, List.range N.toNat,
        (List.range (N.toNat - 1)).map (fun k => D * ((k + 1 : Nat) : ℚ)), 1⟩ := by
  rw [Cli.safeExecute, Cli.safeExecuteGo_allFail f D hf N.toNat 0 (by omega)]
  have h1 : (List.range N.toNat).map (· + 0) = List.range N.toNat := by
    simp
  have h2 : (List.range (N.toNat - 1)).map
        (fun k => D * ((0 + k + 1 : Nat) : ℚ))
      = (List.range (N.toNat - 1)).map (fun k => D * ((k + 1 : Nat) : ℚ)) := by
    refine List.map_congr_left fun x _ => ?_
    norm_num
  rw [h1, h2]

/-- Witness for C4: a function that always raises, with `N = 2` attempts and
base delay `D = 1`, is called at attempts 0 and 1, sleeps once (duration 1),
yields no result and one error increment. -/
theorem C4_retry_exhaustion_witness :
    Cli.safeExecute (2 : Int) (1 : ℚ)
        (fun _ => (Except.error "boom" : Except String Nat)) =
      ⟨none, [0, 1], [1], 1⟩ := by
  rw [C4_retry_exhaustion (fun _ => (Except.error "boom" : Except String Nat))
    2 1 (by norm_num) (fun _ => ⟨"boom", rfl⟩)]
  have h2 : (2 : Int).toNat = 2 := rfl
  rw [h2]
  norm_num [List.range_succ]

/-- C10: if the configured maximum attempt count is zero or negative, then
`range(max_retries)` is empty, so `_safe_execute` returns `None` without
invoking the wrapped operation at all, sleeping, or incrementing
`self.error_count`. -/
theorem C10_retry_nonpositive {E A : Type} (f : Nat → Except E A) (N : Int)
    (D : ℚ) (hN : N ≤ 0) :
    Cli.safeExecute N D f = ⟨none, [], [], 0⟩ := by
  have h : N.toNat = 0 := by omega
  rw [Cli.safeExecute, h]
  rfl

/-- Witness for C10 at `N = -1`: nothing happens. -/
theorem C10_retry_nonpositive_witness :
    Cli.safeExecute (-1 : Int) (1 : ℚ)
        (fun _ => (Except.error "x" : Except String Nat)) =
      ⟨none, [], [], 0⟩ :=
  C10_retry_nonpositive _ _ _ (by norm_num)

/-- Counterexample to C2 as stated: `existing_permalinks` is computed once
from the prior state and never extended with the permalinks added during the
run, so a fetch result that repeats a fresh permalink produces a saved
sequence with duplicate permalinks even though the prior state (here empty,
trivially duplicate-free) satisfied the invariant. -/
theorem C2_counterexample :
    (([] : List Cli.StoredPost).map (·.permalink)).Nodup ∧
      ¬ ((Cli.mergeScrape []
            [⟨some "/r/a/1", none⟩, ⟨some "/r/a/1", none⟩]
            (fun _ => some ⟨some "x"⟩)).1.map (·.permalink)).Nodup := by
  refine ⟨List.nodup_nil, ?_⟩
  intro h
  have he : (Cli.mergeScrape ([] : List Cli.StoredPost)
        [⟨some "/r/a/1", none⟩, ⟨some "/r/a/1", none⟩]
        (fun _ => some ⟨some "x"⟩)).1.map (·.permalink)
      = [some "/r/a/1", some "/r/a/1"] := rfl
  rw [he] at h
  simp at h

/-- C2 (amended): if the prior state's permalinks are pairwise distinct AND
the fetched candidates' effective permalinks are pairwise distinct, then the
saved sequence's permalinks are pairwise distinct.  (As stated the claim is
false: the duplicate check only consults the prior state, so duplicates
inside one fetch result survive — see `C2_counterexample`.) -/
theorem C2_no_duplicate_permalinks (existing : List Cli.StoredPost)
    (posts : List Cli.RawPost) (scrapeDetails : String → Option Cli.PostDetails)
    (hex : (existing.map (·.permalink)).Nodup)
    (hposts : (posts.map Cli.effPermalink).Nodup) :
    ((Cli.mergeScrape existing posts scrapeDetails).1.map (·.permalink)).Nodup := by
  simp only [Cli.mergeScrape, List.map_append]
  refine List.Nodup.append hex
    (Cli.processPosts_new_nodup scrapeDetails _ posts hposts) ?_
  intro a ha hb
  rw [List.mem_map] at hb
  obtain ⟨r, hr, hre⟩ := hb
  have hno := (Cli.processPosts_new_mem scrapeDetails
    (existing.map (·.permalink)) posts r hr).2
  exact hno (hre ▸ ha)

/-- Witness for the amended C2: one old record, one fresh candidate, the
merged permalinks are distinct. -/
theorem C2_no_duplicate_permalinks_witness :
    ((Cli.mergeScrape [⟨some "/r/a/1", none⟩] [⟨some "/r/a/2", none⟩]
        (fun _ => some ⟨some "x"⟩)).1.map (·.permalink)).Nodup :=
  C2_no_duplicate_permalinks _ _ _ (by simp) (by simp)

/-- C3: the dedup merge is idempotent — merging the same fetch result again
into the already-merged state adds zero records (`added_count = 0`), for
every prior state, fetch result, and (deterministic) detail-scrape
behaviour. -/
theorem C3_merge_idempotent (existing : List Cli.StoredPost)
    (posts : List Cli.RawPost)
    (scrapeDetails : String → Option Cli.PostDetails) :
    (Cli.mergeScrape (Cli.mergeScrape existing posts scrapeDetails).1
        posts scrapeDetails).2.1 = 0 := by
  simp only [Cli.mergeScrape, List.map_append, List.length_eq_zero]
  apply Cli.processPosts_nil_of_covered
  intro post hpost hsome
  rcases Cli.processPosts_covers scrapeDetails (existing.map (·.permalink))
      posts post hpost hsome with hin | hin
  · exact List.mem_append_left _ hin
  · exact List.mem_append_right _ hin

/-- C6: a detail-scrape call is issued only for candidates whose permalink is
not already among the prior state's permalinks; and on the spec's concrete
scenario (prior `[{permalink:"/r/a/1"}]`, fetch
`[{permalink:"/r/a/1"}, {permalink:"/r/a/2", …}]`) no call is issued for
`"/r/a/1"`, the calls are exactly `["/r/a/2"]`, the merged store has size 2
and `added_count` is 1. -/
theorem C6_filter_before_detail :
    (∀ (existing : List Cli.StoredPost) (posts : List Cli.RawPost)
        (scrapeDetails : String → Option Cli.PostDetails),
      ∀ q ∈ (Cli.mergeScrape existing posts scrapeDetails).2.2,
        (some q) ∉ existing.map (·.permalink)) ∧
    ((Cli.mergeScrape [⟨some "/r/a/1", none⟩]
        [⟨some "/r/a/1", none⟩, ⟨some "/r/a/2", some "t"⟩]
        (fun _ => some ⟨some "x"⟩)).2.2 = ["/r/a/2"] ∧
     (Cli.mergeScrape [⟨some "/r/a/1", none⟩]
        [⟨some "/r/a/1", none⟩, ⟨some "/r/a/2", some "t"⟩]
        (fun _ => some ⟨some "x"⟩)).1.length = 2 ∧
     (Cli.mergeScrape [⟨some "/r/a/1", none⟩]
        [⟨some "/r/a/1", none⟩, ⟨some "/r/a/2", some "t"⟩]
        (fun _ => some ⟨some "x"⟩)).2.1 = 1) := by
  refine ⟨?_, rfl, rfl, rfl⟩
  intro existing posts scrapeDetails q hq
  exact Cli.processPosts_calls_not_existing scrapeDetails _ posts q hq

/-- Witness for C6: on the spec's scenario, the single issued call
`"/r/a/2"` is indeed for a permalink absent from the prior state. -/
theorem C6_filter_before_detail_witness :
    (some "/r/a/2") ∉
      ([⟨some "/r/a/1", none⟩] : List Cli.StoredPost).map (·.permalink) :=
  C6_filter_before_detail.1 [⟨some "/r/a/1", none⟩]
    [⟨some "/r/a/1", none⟩, ⟨some "/r/a/2", some "t"⟩]
    (fun _ => some ⟨some "x"⟩) "/r/a/2" (by simp [Cli.mergeScrape, Cli.processPosts, Cli.effPermalink])

/-- C7: loading prior state yields the empty sequence when the file is
absent and when its content does not parse as JSON, whatever the parser's
behaviour on other inputs; the embedding of `_load_existing_data` is a total
function — both `FileNotFoundError` and `json.JSONDecodeError` are caught —
so no fault reaches the caller on these inputs. -/
theorem C7_load_missing_or_invalid
    (parse : String → Option (List Cli.StoredPost)) :
    Cli.loadExistingData none parse = [] ∧
      ∀ content, parse content = none →
        Cli.loadExistingData (some content) parse = [] := by
  refine ⟨rfl, ?_⟩
  intro content h
  simp [Cli.loadExistingData, h]

/-- Witness for C7: a parser rejecting everything, applied to the content
`"not json"`, yields the empty prior state. -/
theorem C7_load_missing_or_invalid_witness :
    Cli.loadExistingData (some "not json")
        (fun _ => (none : Option (List Cli.StoredPost))) = [] :=
  (C7_load_missing_or_invalid (fun _ => none)).2 "not json" rfl

/-- Counterexample to C5 as stated: `_save_to_json` opens the target with
mode `"w"`, truncating it in place (no write-to-temp + rename), so a
serialization fault after one chunk leaves the file holding `"["` — the
prior content `"[]"` is gone, even though the fault does propagate. -/
theorem C5_counterexample :
    Cli.saveToJson (some "[]") ["[", "{}", "]"] (some 1) = (some "[", true) ∧
      (some "[" : Option String) ≠ some "[]" := by
  refine ⟨?_, by simp⟩
  rfl

/-- C5 (amended): a serialization fault does propagate to the caller
(`_save_to_json` re-raises), but the save is not atomic: the outcome is
independent of the prior file content — the truncating `open(.., "w")`
discards it — and after a fault at chunk `k` the file holds exactly the
chunks written before the fault, not the prior content. -/
theorem C5_save_fault_truncates (prior prior' : Option String)
    (chunks : List String) (k : Nat) :
    Cli.saveToJson prior chunks (some k) = Cli.saveToJson prior' chunks (some k) ∧
      (Cli.saveToJson prior chunks (some k)).2 = true ∧
      (Cli.saveToJson prior chunks (some k)).1 =
        some (String.join (chunks.take k)) :=
  ⟨rfl, rfl, rfl⟩

/-- Counterexample to C8 as stated: when the candidate-list fetch fails
(`fetchResult = none`, every retry exhausted), `comprehensive_scrape` logs
the failure and returns normally — nothing is saved and zero records are
added — but `main` then falls through to the statistics logging and the
process exits with code 0, not non-zero. -/
theorem C8_counterexample :
    Cli.mainExitCode none (fun _ => none) none (fun _ => none)
        (fun _ => false) = (0, ⟨none, 0, true, false⟩) := rfl

/-- C8 (amended): a run whose candidate-list fetch fails aborts with zero
new records, saves nothing, and reports the failure, but the process exit
code is 0 — `main` exits non-zero only when an exception escapes, and the
fetch-failure path raises none. -/
theorem C8_fetch_failure_aborts (file : Option String)
    (parse : String → Option (List Cli.StoredPost))
    (scrapeDetails : String → Option Cli.PostDetails)
    (saveRaises : List Cli.StoredPost → Bool) :
    Cli.mainExitCode file parse none scrapeDetails saveRaises =
      (0, ⟨none, 0, true, false⟩) := by
  simp [Cli.mainExitCode, Cli.comprehensiveScrape]

/-- Counterexample to C1 as stated: on the spec's own scenario
`A(removed) -> [B, C(removed) -> [D]]`, `insert_comments` stores nothing at
all — the tombstone guard wraps the whole body including the recursion into
`replies`, so the children of a removed comment are never visited, let alone
re-parented; the claimed stored set `{B, D}` is actually empty. -/
theorem C1_counterexample :
    (PostDb.insertComments 1
      (PostDb.Comment.mk (some "A") (some "[removed]") none
        [PostDb.Comment.mk (some "B") (some "B body") none [],
         PostDb.Comment.mk (some "C") (some "[removed]") none
           [PostDb.Comment.mk (some "D") (some "D body") none []]])
      none ⟨1, []⟩).rows = [] := rfl

/-- C1 (amended): when a comment's body is exactly `'[removed]'` or
`'[deleted]'`, `insert_comments` skips the comment **and its entire reply
subtree**: the table state is returned unchanged — no re-parenting of the
children takes place. -/
theorem C1_tombstone_drops_subtree (postId : Nat) (comment : PostDb.Comment)
    (parentId : Option Nat) (st : PostDb.CommentsDB)
    (h : comment.bodyText = "[removed]" ∨ comment.bodyText = "[deleted]") :
    PostDb.insertComments postId comment parentId st = st := by
  rcases comment with ⟨author, body, score, replies⟩
  have hc : (body.getD "") ∈ (["[removed]", "[deleted]"] : List String) := by
    rcases h with h | h <;> rw [PostDb.Comment.bodyText] at h <;> simp [h]
  rw [PostDb.insertComments, if_neg (fun hn => hn hc)]

/-- Witness for the amended C1: inserting the scenario's removed root
comment `A` leaves the empty table empty. -/
theorem C1_tombstone_drops_subtree_witness :
    PostDb.insertComments 1
      (PostDb.Comment.mk (some "A") (some "[removed]") none
        [PostDb.Comment.mk (some "B") (some "B body") none [],
         PostDb.Comment.mk (some "C") (some "[removed]") none
           [PostDb.Comment.mk (some "D") (some "D body") none []]])
      none ⟨1, []⟩ = ⟨1, []⟩ :=
  C1_tombstone_drops_subtree 1 _ none ⟨1, []⟩ (Or.inl rfl)

/-- Counterexample to C9 as stated: the two `extract_subreddit` functions are
not extensionally equal — on a permalink the pattern does not match (here
the empty string), post_db.py returns Python `None` while db2txt.py returns
the string `"unknown_subreddit"`. -/
theorem C9_counterexample :
    PostDb.extractSubredditVal "" ≠ Db2Txt.extractSubredditVal "" ∧
      PostDb.extractSubredditVal "" = PyStr.pyNone ∧
      Db2Txt.extractSubredditVal "" = PyStr.pyStr "unknown_subreddit" := by
  refine ⟨?_, rfl, rfl⟩
  intro h
  simp [PostDb.extractSubredditVal, Db2Txt.extractSubredditVal,
    PostDb.extract_subreddit, Db2Txt.extract_subreddit, rSlashSearch] at h

/-- C9 (amended): the two functions agree whenever the pattern `/r/<name>/`
matches (both return the first capture), and differ exactly on non-matching
permalinks, where db2txt.py substitutes the fallback `"unknown_subreddit"`
for post_db.py's `None`: for every permalink, db2txt's result equals
post_db's result with `None` replaced by `"unknown_subreddit"`. -/
theorem C9_extract_subreddit_relation (permalink : String) :
    Db2Txt.extract_subreddit permalink =
      (PostDb.extract_subreddit permalink).getD "unknown_subreddit" := by
  rw [Db2Txt.extract_subreddit, PostDb.extract_subreddit]
  cases h : rSlashSearch permalink.toList <;> simp [h]
